import Mathlib

/-
  Verification of the Space-weather-dashboard repository.

  The development shallowly embeds the three source modules:
    * data_fetcher.py : the DataFetcher feed operations (normalizers),
    * plotter.py      : sparkline generation and the wind-speed summary,
    * dashboard.py    : the refresh loop of main().

  Parsed JSON values are modelled by the inductive `Json` (numbers as
  rationals - every numeric literal appearing in the verified claims is
  exactly representable).  Python expressions that can raise are modelled
  in the `Except PyErr` monad; an exception value reaching the caller is
  `Except.error`.  The Python-semantics helpers (`Json.truthy`,
  `Json.get`, `Json.iter`, `pyFloat`, slicing, indexing) follow CPython
  behaviour on the value shapes the program can meet.
-/

namespace SpaceWeather

/-- Parsed JSON values, as returned by `res.json()` in `_make_request`. -/
inductive Json where
  | null
  | bool (b : Bool)
  | num (q : Rat)
  | str (s : String)
  | arr (elems : List Json)
  | obj (fields : List (String × Json))

/-- Python exception classes that the embedded code can raise. -/
inductive PyErr where
  | attributeError
  | typeError
  | valueError
  | keyError
  | indexError
deriving DecidableEq, Repr

/-- Python truthiness (`bool(x)`) of a JSON value. -/
def Json.truthy : Json → Bool
  | .null => false
  | .bool b => b
  | .num q => q ≠ 0
  | .str s => s ≠ ""
  | .arr l => !l.isEmpty
  | .obj l => !l.isEmpty

/-- Whether the value is a JSON array (`isinstance(data, list)`). -/
def Json.isList : Json → Bool
  | .arr _ => true
  | _ => false

/-- First binding of a key in an object's field list. -/
def lookupField : List (String × Json) → String → Option Json
  | [], _ => none
  | (k, v) :: rest, key => if k = key then some v else lookupField rest key

/-- Python `x.get(key, default)`: permissive lookup on a dict; on any
non-dict value the attribute `get` does not exist and an
`AttributeError` is raised. -/
def Json.get : Json → String → Json → Except PyErr Json
  | .obj fields, key, default => .ok ((lookupField fields key).getD default)
  | _, _, _ => .error .attributeError

/-- Python `x[key]` for a string key: dict lookup raising `KeyError` when
absent; subscripting any other JSON value with a string raises
`TypeError`. -/
def pySubscript (j : Json) (key : String) : Except PyErr Json :=
  match j with
  | .obj fields =>
    match lookupField fields key with
    | some v => .ok v
    | none => .error .keyError
  | _ => .error .typeError

/-- Python `x[0]`: first element of a list or string (raising
`IndexError` when empty); a dict has no integer key in this model so the
lookup raises `KeyError`; other values raise `TypeError`. -/
def pySubscriptZero (j : Json) : Except PyErr Json :=
  match j with
  | .arr (x :: _) => .ok x
  | .arr [] => .error .indexError
  | .str s =>
    match s.toList with
    | c :: _ => .ok (.str (String.mk [c]))
    | [] => .error .indexError
  | .obj _ => .error .keyError
  | _ => .error .typeError

/-- Python `for e in x`: a list yields its elements, a dict its keys, a
string its characters; other values are not iterable. -/
def Json.iter : Json → Except PyErr (List Json)
  | .arr l => .ok l
  | .obj fields => .ok (fields.map (fun kv => .str kv.1))
  | .str s => .ok (s.toList.map (fun c => .str (String.mk [c])))
  | _ => .error .typeError

/-- Python prefix slice `x[:n]` on a list or string; slicing any other
value raises `TypeError`. -/
def pySliceTake (j : Json) (n : Nat) : Except PyErr Json :=
  match j with
  | .str s => .ok (.str (String.mk (s.toList.take n)))
  | .arr l => .ok (.arr (l.take n))
  | _ => .error .typeError

/-- Python suffix slice `l[-n:]` on a list: the last `n` elements. -/
def takeLast (n : Nat) (l : List α) : List α :=
  l.drop (l.length - n)

/-- Python `x + s` for a string literal `s`: defined only when `x` is
itself a string, otherwise `TypeError`. -/
def pyAddStr (j : Json) (s : String) : Except PyErr Json :=
  match j with
  | .str t => .ok (.str (t ++ s))
  | _ => .error .typeError

/-- Decimal digit value of a character, if it is a digit. -/
def digitVal (c : Char) : Option Nat :=
  if '0' ≤ c ∧ c ≤ '9' then some (c.toNat - '0'.toNat) else none

/-- Accumulate decimal digits into a natural number (empty list gives 0). -/
def natOfDigits (cs : List Char) : Nat :=
  cs.foldl (fun a c => a * 10 + (c.toNat - '0'.toNat)) 0

/-- Whether the character is a decimal digit. -/
def isDigitChar (c : Char) : Bool :=
  '0' ≤ c ∧ c ≤ '9'

/-- Parse an unsigned decimal literal `digits[.digits]` with at least one
digit, as accepted by Python `float`. -/
def parseUnsignedDecimal (cs : List Char) : Option Rat :=
  let intPart := cs.takeWhile isDigitChar
  let rest := cs.dropWhile isDigitChar
  match rest with
  | [] => if intPart.isEmpty then none else some (natOfDigits intPart : Rat)
  | '.' :: frac =>
    if frac.all isDigitChar ∧ (intPart ≠ [] ∨ frac ≠ []) then
      some ((natOfDigits intPart : Rat) + (natOfDigits frac : Rat) / (10 : Rat) ^ frac.length)
    else none
  | _ => none

/-- Parse a signed decimal literal. -/
def parseDecimal (s : String) : Option Rat :=
  match s.toList with
  | '-' :: rest => (parseUnsignedDecimal rest).map Neg.neg
  | '+' :: rest => parseUnsignedDecimal rest
  | cs => parseUnsignedDecimal cs

/-- Python `float(x)` on a JSON value: numbers pass through, booleans
coerce to 0/1, strings are parsed (raising `ValueError` when they do not
parse), and other values raise `TypeError`. -/
def pyFloat : Json → Except PyErr Rat
  | .num q => .ok q
  | .bool b => .ok (if b then 1 else 0)
  | .str s =>
    match parseDecimal s with
    | some q => .ok q
    | none => .error .valueError
  | _ => .error .typeError

/-! ## data_fetcher.py : the DataFetcher feed operations

Each operation receives the result of `_make_request` - `none` when the
transport failed (the method returned Python `None`), `some j` when a
JSON value was parsed - and performs the normalization the Python method
performs on it.  An uncaught Python exception is `Except.error`. -/

/-- Normalized CME event record built by `get_cme_events`. -/
structure CmeRecord where
  startTime : Json
  sourceLocation : Json
  catalog : Json
  link : Json

/-- Normalized solar-flare record built by `get_solar_flares`. -/
structure FlareRecord where
  beginTime : Json
  peakTime : Json
  classType : Json
  sourceLocation : Json
  link : Json

/-- Normalized geomagnetic-storm record built by `get_geomagnetic_storms`. -/
structure StormRecord where
  startTime : Json
  kpIndex : Json
  link : Json

/-- Normalized alert record built by `get_space_weather_alerts`. -/
structure AlertRecord where
  messageType : Json
  messageIssueTime : Json
  messageBody : Json

/-- Normalized solar-wind sample built by `get_solar_wind_data`. -/
structure WindRecord where
  time_tag : Json
  speed : Rat
  density : Rat

/-- Whether the fetched value is falsy (`if not data:`): a failed request
(`None`) or a falsy JSON value. -/
def fetchFalsy : Option Json → Bool
  | none => true
  | some j => !j.truthy

/-- The accumulation loop `for e in data: events.append(body(e))`: each
element is transformed in order and the first uncaught exception aborts
the loop (and the enclosing method). -/
def mapME (f : α → Except PyErr β) : List α → Except PyErr (List β)
  | [] => .ok []
  | a :: l => do
    let b ← f a
    let bl ← mapME f l
    pure (b :: bl)

/-- Body of the `for e in data` loop of `get_cme_events`. -/
def cmeOfElem (e : Json) : Except PyErr CmeRecord := do
  let st ← e.get "startTime" .null
  let sl ← e.get "sourceLocation" .null
  let cat ← e.get "catalog" .null
  let lnk ← e.get "link" (.str "")
  pure ⟨st, sl, cat, lnk⟩

/-- `DataFetcher.get_cme_events`, after `_make_request` returned `data`. -/
def get_cme_events (data : Option Json) : Except PyErr (Option (List CmeRecord)) :=
  if fetchFalsy data then pure none
  else do
    let d := data.getD .null
    let elems ← d.iter
    let events ← mapME cmeOfElem elems
    pure (some (events.take 5))

/-- Body of the `for f in data` loop of `get_solar_flares`. -/
def flareOfElem (f : Json) : Except PyErr FlareRecord := do
  let bt ← f.get "beginTime" .null
  let pt ← f.get "peakTime" .null
  let ct ← f.get "classType" .null
  let sl ← f.get "sourceLocation" .null
  let lnk ← f.get "link" (.str "")
  pure ⟨bt, pt, ct, sl, lnk⟩

/-- `DataFetcher.get_solar_flares`, after `_make_request` returned `data`. -/
def get_solar_flares (data : Option Json) : Except PyErr (Option (List FlareRecord)) :=
  if fetchFalsy data then pure none
  else do
    let d := data.getD .null
    let elems ← d.iter
    let flares ← mapME flareOfElem elems
    pure (some (flares.take 5))

/-- Body of the `for s in data` loop of `get_geomagnetic_storms`:
`kp_index` is set from `s["allKpIndex"][0].get("kpIndex")` only when
`s.get("allKpIndex")` is truthy. -/
def stormOfElem (s : Json) : Except PyErr StormRecord := do
  let akp ← s.get "allKpIndex" .null
  let kp ←
    if akp.truthy then do
      let lst ← pySubscript s "allKpIndex"
      let fst ← pySubscriptZero lst
      fst.get "kpIndex" .null
    else
      pure .null
  let st ← s.get "startTime" .null
  let lnk ← s.get "link" (.str "")
  pure ⟨st, kp, lnk⟩

/-- `DataFetcher.get_geomagnetic_storms`, after `_make_request` returned
`data`. -/
def get_geomagnetic_storms (data : Option Json) : Except PyErr (Option (List StormRecord)) :=
  if fetchFalsy data then pure none
  else do
    let d := data.getD .null
    let elems ← d.iter
    let storms ← mapME stormOfElem elems
    pure (some (storms.take 5))

/-- Body of the `for a in data[:5]` loop of `get_space_weather_alerts`:
the message body is `a.get("messageBody", "")[:200] + "..."`. -/
def alertOfElem (a : Json) : Except PyErr AlertRecord := do
  let mt ← a.get "messageType" .null
  let mit ← a.get "messageIssueTime" .null
  let mb ← a.get "messageBody" (.str "")
  let mbCut ← pySliceTake mb 200
  let mbFinal ← pyAddStr mbCut "..."
  pure ⟨mt, mit, mbFinal⟩

/-- `DataFetcher.get_space_weather_alerts`, after `_make_request`
returned `data`. -/
def get_space_weather_alerts (data : Option Json) : Except PyErr (Option (List AlertRecord)) :=
  if fetchFalsy data then pure none
  else do
    let d := data.getD .null
    let sliced ← pySliceTake d 5
    let elems ← sliced.iter
    let alerts ← mapME alertOfElem elems
    pure (some alerts)

/-- Body of the `for d in data` loop of `get_solar_wind_data`: the whole
body sits in `try ... except Exception: continue`, so any raised
exception skips the element; a sample is kept only when the coerced
speed is strictly positive. -/
def windOfElem (d : Json) : Option WindRecord :=
  match d.get "proton_speed" (.num 0) with
  | .error _ => none
  | .ok ps =>
    match pyFloat ps with
    | .error _ => none
    | .ok speed =>
      match d.get "proton_density" (.num 0) with
      | .error _ => none
      | .ok pd =>
        match pyFloat pd with
        | .error _ => none
        | .ok density =>
          if 0 < speed then
            match d.get "time_tag" .null with
            | .error _ => none
            | .ok tt => some ⟨tt, speed, density⟩
          else
            none

/-- `DataFetcher.get_solar_wind_data`, after `_make_request` returned
`data`: non-list input yields `None`; qualifying samples are windowed to
the last 60; an empty qualifying list yields `None`. -/
def get_solar_wind_data (data : Option Json) : Option (List WindRecord) :=
  match data with
  | some (.arr elems) =>
    let result := elems.filterMap windOfElem
    if result.isEmpty then none else some (takeLast 60 result)
  | _ => none

/-- `DataFetcher.get_sunspot_data`: returns `_make_request`'s result
verbatim. -/
def get_sunspot_data (data : Option Json) : Option Json :=
  data

/-- `DataFetcher.get_geomagnetic_index`, after `_make_request` returned
`data`: `data[-20:] if data else None` behind an `isinstance` list
check. -/
def get_geomagnetic_index (data : Option Json) : Option (List Json) :=
  match data with
  | some (.arr l) => if l.isEmpty then none else some (takeLast 20 l)
  | _ => none

/-- `DataFetcher.get_solar_flux`, after `_make_request` returned `data`:
`data[-5:] if data else None` behind an `isinstance` list check. -/
def get_solar_flux (data : Option Json) : Option (List Json) :=
  match data with
  | some (.arr l) => if l.isEmpty then none else some (takeLast 5 l)
  | _ => none

/-! ## plotter.py : sparkline and wind-speed summary -/

/-- The 8-glyph sparkline palette `_SPARK_CHARS`. -/
def sparkChars : List Char := "▁▂▃▄▅▆▇█".toList

/-- Python `int(q)`: truncation toward zero. -/
def pyInt (q : Rat) : Int :=
  if 0 ≤ q then ⌊q⌋ else ⌈q⌉

/-- Python `min(l)` on a list of floats (`ValueError`, here `none`, on an
empty list). -/
def pyMin : List Rat → Option Rat
  | [] => none
  | v :: vs => some (vs.foldl min v)

/-- Python `max(l)` on a list of floats. -/
def pyMax : List Rat → Option Rat
  | [] => none
  | v :: vs => some (vs.foldl max v)

/-- `plotter._normalize` with its default `length = len(_SPARK_CHARS) = 8`:
empty input gives `[]`; a flat series maps everything to `8 // 2`;
otherwise each value maps to `int((v - vmin) / rng * 7)`. -/
def pyNormalize (values : List Rat) : List Int :=
  match values with
  | [] => []
  | v :: vs =>
    let vmin := vs.foldl min v
    let vmax := vs.foldl max v
    if vmax = vmin then
      List.replicate (v :: vs).length ((8 : Int) / 2)
    else
      (v :: vs).map (fun x => pyInt ((x - vmin) / (vmax - vmin) * (8 - 1)))

/-- Python string indexing `_SPARK_CHARS[i]` with an `Int` index:
negative indices count from the end, out-of-range raises `IndexError`. -/
def pyStrIndex (s : List Char) (i : Int) : Except PyErr Char :=
  let j : Int := if 0 ≤ i then i else (s.length : Int) + i
  if h : 0 ≤ j ∧ j.toNat < s.length then
    .ok (s.get ⟨j.toNat, h.2⟩)
  else
    .error .indexError

/-- `plotter.sparkline`: joins the palette glyph of each normalized
index. -/
def sparkline (values : List Rat) : Except PyErr String := do
  let idxs := pyNormalize values
  let chars ← mapME (pyStrIndex sparkChars) idxs
  pure (String.mk chars)

/-- The speeds sequence `create_wind_speed_plot` summarises, collected
from the last 30 wind records: an entry with a falsy `time_tag` is
skipped (`if not time_tag or speed is None: continue`); the `speed`
field of a `WindRecord` is a float, so `float(speed)` always succeeds. -/
def collectSpeeds (wind_data : List WindRecord) : List Rat :=
  (takeLast 30 wind_data).filterMap
    (fun e => if e.time_tag.truthy then some e.speed else none)

/-- The reported median of `create_wind_speed_plot`:
`speeds[len(speeds) // 2] if speeds else 0.0`. -/
def windSpeedMedian (speeds : List Rat) : Rat :=
  if h : speeds.length = 0 then 0
  else speeds.get ⟨speeds.length / 2, Nat.div_lt_self (Nat.pos_of_ne_zero h) (by decide)⟩

/-! ## dashboard.py : the refresh loop of `main`

One iteration of `while True:` either completes its `try` body
(fetch, panel updates, `time.sleep(180)`), or raises
`KeyboardInterrupt`, or raises some other exception.  The loop is run
against a script assigning an outcome to each iteration; the observable
events (sleeps and console prints) are collected in order, together
with whether the loop exited (`break`) before the script ran out. -/

/-- Outcome of one iteration's `try` body. -/
inductive CycleOutcome where
  | ok
  | interrupt
  | failure (msg : String)
deriving DecidableEq, Repr

/-- Observable events of the refresh loop. -/
inductive LoopEvent where
  | slept (duration : Nat)
  | printedError (msg : String)
  | printedClosing
deriving DecidableEq, Repr

/-- The refresh loop of `main`: a completed cycle sleeps 180 and
continues; `KeyboardInterrupt` prints the closing message and breaks;
any other exception prints the error and sleeps 30, then continues.
Returns the event trace and whether the loop exited. -/
def refreshLoop : List CycleOutcome → List LoopEvent × Bool
  | [] => ([], false)
  | .ok :: rest =>
    let r := refreshLoop rest
    (.slept 180 :: r.1, r.2)
  | .interrupt :: _ => ([.printedClosing], true)
  | .failure m :: rest =>
    let r := refreshLoop rest
    (.printedError m :: .slept 30 :: r.1, r.2)

/-! ## Concrete inputs used by the claims -/

/-- The spec's three-element wind-sample example input. -/
def windExampleElems : List Json :=
  [.obj [("proton_speed", .str "400"), ("proton_density", .str "5")],
   .obj [("proton_speed", .str "-1"), ("proton_density", .str "2")],
   .obj [("proton_speed", .str "abc"), ("proton_density", .str "1")]]

/-- Shape of an alert element on which the body-truncation claim is
stated: a dict whose `messageBody` value, when present, is a string. -/
def goodAlert : Json → Prop
  | .obj fields =>
    match lookupField fields "messageBody" with
    | none => True
    | some (.str _) => True
    | some _ => False
  | _ => False

/-- The original message body of an alert element: the `messageBody`
string when present, the default empty string otherwise. -/
def alertBody : Json → String
  | .obj fields =>
    match lookupField fields "messageBody" with
    | some (.str s) => s
    | _ => ""
  | _ => ""

/-! ## Helper lemmas -/

theorem mapME_ok_of_forall (f : α → Except PyErr β) (P : α → β → Prop) :
    ∀ (l : List α), (∀ a ∈ l, ∃ b, f a = .ok b ∧ P a b) →
      ∃ bl, mapME f l = .ok bl ∧ List.Forall₂ P l bl := by
  intro l
  induction l with
  | nil => exact fun _ => ⟨[], rfl, List.Forall₂.nil⟩
  | cons a l ih =>
    intro h
    obtain ⟨b, hb, hP⟩ := h a (List.mem_cons_self a l)
    obtain ⟨bl, hbl, hF⟩ := ih (fun x hx => h x (List.mem_cons_of_mem a hx))
    refine ⟨b :: bl, ?_, List.Forall₂.cons hP hF⟩
    simp only [mapME, hb, hbl]
    rfl

theorem foldl_min_le_init : ∀ (vs : List Rat) (v : Rat), vs.foldl min v ≤ v := by
  intro vs
  induction vs with
  | nil => exact fun v => le_refl v
  | cons w ws ih => exact fun v => le_trans (ih (min v w)) (min_le_left v w)

theorem foldl_min_le_mem : ∀ (vs : List Rat) (v x : Rat), x ∈ vs → vs.foldl min v ≤ x := by
  intro vs
  induction vs with
  | nil => intro v x hx; cases hx
  | cons w ws ih =>
    intro v x hx
    rcases List.mem_cons.mp hx with h | h
    · subst h; exact le_trans (foldl_min_le_init ws (min v x)) (min_le_right v x)
    · exact ih (min v w) x h

theorem le_foldl_max_init : ∀ (vs : List Rat) (v : Rat), v ≤ vs.foldl max v := by
  intro vs
  induction vs with
  | nil => exact fun v => le_refl v
  | cons w ws ih => exact fun v => le_trans (le_max_left v w) (ih (max v w))

theorem le_foldl_max_mem : ∀ (vs : List Rat) (v x : Rat), x ∈ vs → x ≤ vs.foldl max v := by
  intro vs
  induction vs with
  | nil => intro v x hx; cases hx
  | cons w ws ih =>
    intro v x hx
    rcases List.mem_cons.mp hx with h | h
    · subst h; exact le_trans (le_max_right v x) (le_foldl_max_init ws (max v x))
    · exact ih (max v w) x h

theorem takeLast_length_le (n : Nat) (l : List α) : (takeLast n l).length ≤ n := by
  simp only [takeLast, List.length_drop]
  omega

theorem takeLast_suffix (n : Nat) (l : List α) : takeLast n l <:+ l :=
  List.drop_suffix _ _

theorem ok_bind (a : α) (f : α → Except PyErr β) :
    (Except.ok a : Except PyErr α) >>= f = f a := rfl

theorem error_bind (e : PyErr) (f : α → Except PyErr β) :
    (Except.error e : Except PyErr α) >>= f = .error e := rfl

theorem cmeOfElem_obj (fields : List (String × Json)) :
    cmeOfElem (.obj fields)
      = .ok ⟨(lookupField fields "startTime").getD .null,
             (lookupField fields "sourceLocation").getD .null,
             (lookupField fields "catalog").getD .null,
             (lookupField fields "link").getD (.str "")⟩ := rfl

theorem flareOfElem_obj (fields : List (String × Json)) :
    flareOfElem (.obj fields)
      = .ok ⟨(lookupField fields "beginTime").getD .null,
             (lookupField fields "peakTime").getD .null,
             (lookupField fields "classType").getD .null,
             (lookupField fields "sourceLocation").getD .null,
             (lookupField fields "link").getD (.str "")⟩ := rfl

theorem stormOfElem_no_kp (fields : List (String × Json))
    (h : lookupField fields "allKpIndex" = none) :
    stormOfElem (.obj fields)
      = .ok ⟨(lookupField fields "startTime").getD .null, .null,
             (lookupField fields "link").getD (.str "")⟩ := by
  simp only [stormOfElem, Json.get, h, Option.getD_none, ok_bind]
  rfl

theorem stormOfElem_empty_kp (fields : List (String × Json))
    (h : lookupField fields "allKpIndex" = some (.arr [])) :
    stormOfElem (.obj fields)
      = .ok ⟨(lookupField fields "startTime").getD .null, .null,
             (lookupField fields "link").getD (.str "")⟩ := by
  simp only [stormOfElem, Json.get, h, Option.getD_some, ok_bind]
  rfl

theorem stormOfElem_first_kp (fields kfields : List (String × Json)) (rest : List Json)
    (h : lookupField fields "allKpIndex" = some (.arr (.obj kfields :: rest))) :
    stormOfElem (.obj fields)
      = .ok ⟨(lookupField fields "startTime").getD .null,
             (lookupField kfields "kpIndex").getD .null,
             (lookupField fields "link").getD (.str "")⟩ := by
  simp only [stormOfElem, Json.get, h, Option.getD_some, ok_bind, pySubscript,
    pySubscriptZero, Json.truthy]
  rfl

theorem pyInt_eq_floor (q : Rat) (h : 0 ≤ q) : pyInt q = ⌊q⌋ := by
  rw [pyInt, if_pos h]

theorem scale_bounds (vmin vmax x : Rat) (h1 : vmin ≤ x) (h2 : x ≤ vmax)
    (hlt : vmin < vmax) :
    0 ≤ (x - vmin) / (vmax - vmin) * (8 - 1)
      ∧ (x - vmin) / (vmax - vmin) * (8 - 1) ≤ 7 := by
  have hpos : (0 : Rat) < vmax - vmin := sub_pos.mpr hlt
  have h0 : (0 : Rat) ≤ (x - vmin) / (vmax - vmin) :=
    div_nonneg (sub_nonneg.mpr h1) (le_of_lt hpos)
  have hle1 : (x - vmin) / (vmax - vmin) ≤ 1 :=
    (div_le_one hpos).mpr (sub_le_sub_right h2 vmin)
  constructor
  · apply mul_nonneg h0
    norm_num
  · calc (x - vmin) / (vmax - vmin) * (8 - 1) ≤ 1 * (8 - 1) := by
          apply mul_le_mul_of_nonneg_right hle1
          norm_num
      _ ≤ 7 := by norm_num

theorem pyNormalize_length (values : List Rat) :
    (pyNormalize values).length = values.length := by
  cases values with
  | nil => rfl
  | cons v vs =>
    simp only [pyNormalize]
    split
    · simp
    · simp

theorem pyNormalize_mem_bounds :
    ∀ values : List Rat, ∀ i ∈ pyNormalize values, 0 ≤ i ∧ i ≤ 7 := by
  intro values i hi
  cases values with
  | nil => simp [pyNormalize] at hi
  | cons v vs =>
    simp only [pyNormalize] at hi
    by_cases hdeg : vs.foldl max v = vs.foldl min v
    · rw [if_pos hdeg] at hi
      have h4 := List.eq_of_mem_replicate hi
      subst h4
      constructor <;> decide
    · rw [if_neg hdeg] at hi
      rcases List.mem_map.mp hi with ⟨x, hx, rfl⟩
      have h1 : vs.foldl min v ≤ x := by
        rcases List.mem_cons.mp hx with h | h
        · subst h; exact foldl_min_le_init vs x
        · exact foldl_min_le_mem vs v x h
      have h2 : x ≤ vs.foldl max v := by
        rcases List.mem_cons.mp hx with h | h
        · subst h; exact le_foldl_max_init vs x
        · exact le_foldl_max_mem vs v x h
      have hlt : vs.foldl min v < vs.foldl max v := by
        have hle : vs.foldl min v ≤ vs.foldl max v :=
          le_trans (foldl_min_le_init vs v) (le_foldl_max_init vs v)
        exact lt_of_le_of_ne hle (fun h => hdeg h.symm)
      obtain ⟨hq0, hq7⟩ := scale_bounds (vs.foldl min v) (vs.foldl max v) x h1 h2 hlt
      rw [pyInt_eq_floor _ hq0]
      constructor
      · exact Int.floor_nonneg.mpr hq0
      · calc ⌊(x - vs.foldl min v) / (vs.foldl max v - vs.foldl min v) * (8 - 1)⌋
            ≤ ⌊((7 : Int) : Rat)⌋ := Int.floor_le_floor (by exact_mod_cast hq7)
          _ = 7 := Int.floor_intCast 7

theorem pyNormalize_nondegenerate (v : Rat) (vs : List Rat)
    (hne : vs.foldl max v ≠ vs.foldl min v) :
    pyNormalize (v :: vs)
      = (v :: vs).map
          (fun x => ⌊(x - vs.foldl min v) / (vs.foldl max v - vs.foldl min v) * 7⌋) := by
  simp only [pyNormalize]
  rw [if_neg hne]
  apply List.map_congr_left
  intro x hx
  have h1 : vs.foldl min v ≤ x := by
    rcases List.mem_cons.mp hx with h | h
    · subst h; exact foldl_min_le_init vs x
    · exact foldl_min_le_mem vs v x h
  have h2 : x ≤ vs.foldl max v := by
    rcases List.mem_cons.mp hx with h | h
    · subst h; exact le_foldl_max_init vs x
    · exact le_foldl_max_mem vs v x h
  have hlt : vs.foldl min v < vs.foldl max v := by
    have hle : vs.foldl min v ≤ vs.foldl max v :=
      le_trans (foldl_min_le_init vs v) (le_foldl_max_init vs v)
    exact lt_of_le_of_ne hle (fun h => hne h.symm)
  obtain ⟨hq0, _⟩ := scale_bounds (vs.foldl min v) (vs.foldl max v) x h1 h2 hlt
  rw [pyInt_eq_floor _ hq0]
  norm_num

theorem sparkline_isOk (values : List Rat) :
    ∃ s : String, sparkline values = .ok s ∧ s.length = values.length := by
  have hlen8 : sparkChars.length = 8 := rfl
  have hidx : ∀ i ∈ pyNormalize values,
      ∃ c, pyStrIndex sparkChars i = .ok c ∧ True := by
    intro i hi
    obtain ⟨h0, h7⟩ := pyNormalize_mem_bounds values i hi
    have hcond : 0 ≤ i ∧ i.toNat < sparkChars.length := by
      rw [hlen8]
      omega
    refine ⟨sparkChars.get ⟨i.toNat, hcond.2⟩, ?_, trivial⟩
    simp only [pyStrIndex, if_pos h0]
    rw [dif_pos hcond]
  obtain ⟨chars, hchars, hF⟩ :=
    mapME_ok_of_forall (pyStrIndex sparkChars) (fun _ _ => True) (pyNormalize values) hidx
  refine ⟨String.mk chars, ?_, ?_⟩
  · simp only [sparkline, hchars]
    rfl
  · show chars.length = values.length
    rw [← pyNormalize_length values]
    exact (List.Forall₂.length_eq hF).symm

/-! ## Claims C2, C3, C8 -/

/-- Claim C2 (confirmed): in the refresh loop of `main`, every
non-interrupt exception during a cycle is caught, reported, and followed
by the 30-unit recovery pause (not the 180-unit inter-cycle delay),
after which the loop continues; the loop never exits without a user
interrupt, and an interrupt exits it cleanly with the closing message. -/
theorem c2_refresh_loop :
    (∀ script : List CycleOutcome, (∀ o ∈ script, o ≠ .interrupt) →
      (refreshLoop script).2 = false)
    ∧ (∀ (m : String) (rest : List CycleOutcome),
        refreshLoop (.failure m :: rest)
          = (.printedError m :: .slept 30 :: (refreshLoop rest).1, (refreshLoop rest).2))
    ∧ (∀ rest : List CycleOutcome, refreshLoop (.interrupt :: rest) = ([.printedClosing], true))
    ∧ (∀ script : List CycleOutcome, (refreshLoop script).2 = true → .interrupt ∈ script) := by
  refine ⟨?_, fun m rest => rfl, fun rest => rfl, ?_⟩
  · intro script
    induction script with
    | nil => intro _; rfl
    | cons o rest ih =>
      intro h
      cases o with
      | ok => exact ih (fun x hx => h x (List.mem_cons_of_mem _ hx))
      | interrupt => exact absurd rfl (h .interrupt (List.mem_cons_self _ _))
      | failure m => exact ih (fun x hx => h x (List.mem_cons_of_mem _ hx))
  · intro script
    induction script with
    | nil => intro h; cases h
    | cons o rest ih =>
      cases o with
      | ok => exact fun h => List.mem_cons_of_mem _ (ih h)
      | interrupt => exact fun _ => List.mem_cons_self _ _
      | failure m => exact fun h => List.mem_cons_of_mem _ (ih h)

/-- Witness for C2 at concrete scripts. -/
theorem c2_refresh_loop_witness :
    ((∀ o ∈ [CycleOutcome.failure "boom", CycleOutcome.ok], o ≠ CycleOutcome.interrupt)
      ∧ (refreshLoop [.failure "boom", .ok]).2 = false)
    ∧ ((refreshLoop [CycleOutcome.interrupt]).2 = true
      ∧ CycleOutcome.interrupt ∈ [CycleOutcome.interrupt]) :=
  ⟨⟨by decide, c2_refresh_loop.1 [.failure "boom", .ok] (by decide)⟩,
   ⟨rfl, c2_refresh_loop.2.2.2 [.interrupt] rfl⟩⟩

/-- Claim C3 (confirmed): the wind-speed plot reports as median the
element at index `len // 2` of the speeds sequence in its given order -
for `[5, 1, 9]` it reports `1` (the element at index 1), not the
statistical median `5`. -/
theorem c3_wind_median :
    (∀ (speeds : List Rat) (h : speeds ≠ []),
      windSpeedMedian speeds
        = speeds.get ⟨speeds.length / 2,
            Nat.div_lt_self (List.length_pos.mpr h) (by decide)⟩)
    ∧ windSpeedMedian [5, 1, 9] = 1 ∧ windSpeedMedian [5, 1, 9] ≠ 5 := by
  refine ⟨?_, by decide, by decide⟩
  intro speeds h
  rw [windSpeedMedian, dif_neg (fun h0 => h (List.length_eq_zero.mp h0))]

/-- Witness for C3 at the spec's example sequence. -/
theorem c3_wind_median_witness :
    ([(5 : Rat), 1, 9] ≠ []) ∧ windSpeedMedian [5, 1, 9] = 1 := by
  refine ⟨by decide, ?_⟩
  rw [c3_wind_median.1 [5, 1, 9] (by decide)]
  decide

/-- Claim C8 as stated is false: the k-index normalizer maps the empty
list to the unavailable sentinel (`None`), not to the (empty) list of
its last 20 elements. -/
theorem c8_counterexample :
    get_geomagnetic_index (some (.arr [])) = none
    ∧ takeLast 20 ([] : List Json) = []
    ∧ get_solar_flux (some (.arr [])) = none :=
  ⟨rfl, rfl, rfl⟩

/-- Claim C8 (corrected): a non-list input yields the sentinel; a
NON-EMPTY list yields exactly its last 20 (k-index) or 5 (flux)
elements verbatim in original order - for 25 elements the k-index
normalizer drops exactly the first 5; the empty list yields the
sentinel, not an empty window. -/
theorem c8_windowed_feeds :
    (∀ j : Json, j.isList = false →
      get_geomagnetic_index (some j) = none ∧ get_solar_flux (some j) = none)
    ∧ (get_geomagnetic_index none = none ∧ get_solar_flux none = none)
    ∧ (∀ l : List Json, l ≠ [] →
      get_geomagnetic_index (some (.arr l)) = some (takeLast 20 l)
        ∧ get_solar_flux (some (.arr l)) = some (takeLast 5 l))
    ∧ (∀ l : List Json, l.length = 25 →
      takeLast 20 l = l.drop 5 ∧ (takeLast 20 l).length = 20) := by
  refine ⟨?_, ⟨rfl, rfl⟩, ?_, ?_⟩
  · intro j hj
    cases j <;> simp_all [get_geomagnetic_index, get_solar_flux, Json.isList]
  · intro l hl
    have h : l.isEmpty = false := by
      cases l with
      | nil => exact absurd rfl hl
      | cons a l => rfl
    constructor <;> simp [get_geomagnetic_index, get_solar_flux, h]
  · intro l hl
    constructor
    · simp [takeLast, hl]
    · simp [takeLast, hl]

/-- Witness for C8 at a non-list input and a 25-element list. -/
theorem c8_windowed_feeds_witness :
    (Json.isList (.obj [("a", .null)]) = false
      ∧ get_geomagnetic_index (some (.obj [("a", .null)])) = none)
    ∧ (List.replicate 25 Json.null ≠ []
      ∧ get_geomagnetic_index (some (.arr (List.replicate 25 .null)))
          = some (takeLast 20 (List.replicate 25 .null)))
    ∧ ((List.replicate 25 Json.null).length = 25
      ∧ takeLast 20 (List.replicate 25 Json.null) = (List.replicate 25 Json.null).drop 5) :=
  ⟨⟨rfl, (c8_windowed_feeds.1 (.obj [("a", .null)]) rfl).1⟩,
   ⟨by simp, (c8_windowed_feeds.2.2.1 (List.replicate 25 .null) (by simp)).1⟩,
   ⟨by simp, (c8_windowed_feeds.2.2.2 (List.replicate 25 .null) (by simp)).1⟩⟩

/-! ## Claim C4 -/

/-- Claim C4 (confirmed): the sparkline has exactly one glyph per input
value, every normalized palette index lies in `[0, 7]`, the empty input
yields the empty glyph string (no error), and in the non-degenerate case
each value `v` maps to `⌊(v - vmin) / (vmax - vmin) * 7⌋`. -/
theorem c4_sparkline :
    (∀ values : List Rat, ∀ i ∈ pyNormalize values, 0 ≤ i ∧ i ≤ 7)
    ∧ (∀ values : List Rat, ∃ s : String, sparkline values = .ok s ∧ s.length = values.length)
    ∧ sparkline [] = .ok ""
    ∧ (∀ (values : List Rat) (vmin vmax : Rat),
        pyMin values = some vmin → pyMax values = some vmax → vmin ≠ vmax →
        pyNormalize values = values.map (fun x => ⌊(x - vmin) / (vmax - vmin) * 7⌋)) := by
  refine ⟨pyNormalize_mem_bounds, sparkline_isOk, rfl, ?_⟩
  intro values vmin vmax hmin hmax hne
  cases values with
  | nil => cases hmin
  | cons v vs =>
    rw [pyMin] at hmin
    injection hmin with hmin
    rw [pyMax] at hmax
    injection hmax with hmax
    subst hmin
    subst hmax
    exact pyNormalize_nondegenerate v vs (fun h => hne (h.symm))

/-- Witness for C4 at the sequence `[5, 1, 9]`. -/
theorem c4_sparkline_witness :
    pyMin [(5 : Rat), 1, 9] = some 1 ∧ pyMax [(5 : Rat), 1, 9] = some 9
    ∧ ((1 : Rat) ≠ 9)
    ∧ pyNormalize [(5 : Rat), 1, 9]
        = [(5 : Rat), 1, 9].map (fun x => ⌊(x - 1) / (9 - 1) * 7⌋) :=
  ⟨by decide, by decide, by norm_num,
   c4_sparkline.2.2.2 [5, 1, 9] 1 9 (by decide) (by decide) (by norm_num)⟩

theorem get_cme_events_take5 (elems : List Json) (recs : List CmeRecord)
    (h : get_cme_events (some (.arr elems)) = .ok (some recs)) : recs.length ≤ 5 := by
  by_cases hf : fetchFalsy (some (.arr elems)) = true
  · rw [get_cme_events, if_pos hf] at h
    cases h
  · rw [get_cme_events, if_neg hf] at h
    rcases hmap : mapME cmeOfElem elems with e | evs
    · simp only [Option.getD_some, Json.iter, ok_bind, hmap, error_bind] at h
      cases h
    · simp only [Option.getD_some, Json.iter, ok_bind, hmap] at h
      simp only [pure, Except.pure, Except.ok.injEq, Option.some.injEq] at h
      subst h
      exact List.length_take_le 5 evs

theorem get_solar_flares_take5 (elems : List Json) (recs : List FlareRecord)
    (h : get_solar_flares (some (.arr elems)) = .ok (some recs)) : recs.length ≤ 5 := by
  by_cases hf : fetchFalsy (some (.arr elems)) = true
  · rw [get_solar_flares, if_pos hf] at h
    cases h
  · rw [get_solar_flares, if_neg hf] at h
    rcases hmap : mapME flareOfElem elems with e | evs
    · simp only [Option.getD_some, Json.iter, ok_bind, hmap, error_bind] at h
      cases h
    · simp only [Option.getD_some, Json.iter, ok_bind, hmap] at h
      simp only [pure, Except.pure, Except.ok.injEq, Option.some.injEq] at h
      subst h
      exact List.length_take_le 5 evs

theorem get_geomagnetic_storms_take5 (elems : List Json) (recs : List StormRecord)
    (h : get_geomagnetic_storms (some (.arr elems)) = .ok (some recs)) : recs.length ≤ 5 := by
  by_cases hf : fetchFalsy (some (.arr elems)) = true
  · rw [get_geomagnetic_storms, if_pos hf] at h
    cases h
  · rw [get_geomagnetic_storms, if_neg hf] at h
    rcases hmap : mapME stormOfElem elems with e | evs
    · simp only [Option.getD_some, Json.iter, ok_bind, hmap, error_bind] at h
      cases h
    · simp only [Option.getD_some, Json.iter, ok_bind, hmap] at h
      simp only [pure, Except.pure, Except.ok.injEq, Option.some.injEq] at h
      subst h
      exact List.length_take_le 5 evs

/-! ## Claims C9 and C6 -/

/-- Claim C9 (confirmed): for a storm element, `kp_index` is the
`kpIndex` field of the first element of the nested `allKpIndex` list
when that list is present and non-empty, and is null otherwise; the
extraction returns normally (never fails) when the nested list is
absent or empty. -/
theorem c9_storm_kp :
    (∀ fields : List (String × Json), lookupField fields "allKpIndex" = none →
      ∃ r, stormOfElem (.obj fields) = .ok r ∧ r.kpIndex = .null)
    ∧ (∀ fields : List (String × Json), lookupField fields "allKpIndex" = some (.arr []) →
      ∃ r, stormOfElem (.obj fields) = .ok r ∧ r.kpIndex = .null)
    ∧ (∀ (fields kfields : List (String × Json)) (rest : List Json),
      lookupField fields "allKpIndex" = some (.arr (.obj kfields :: rest)) →
      ∃ r, stormOfElem (.obj fields) = .ok r
        ∧ r.kpIndex = (lookupField kfields "kpIndex").getD .null) := by
  refine ⟨?_, ?_, ?_⟩
  · intro fields h
    exact ⟨_, stormOfElem_no_kp fields h, rfl⟩
  · intro fields h
    exact ⟨_, stormOfElem_empty_kp fields h, rfl⟩
  · intro fields kfields rest h
    exact ⟨_, stormOfElem_first_kp fields kfields rest h, rfl⟩

/-- Witness for C9: an absent nested list, an empty one, and a
one-element one. -/
theorem c9_storm_kp_witness :
    (lookupField [] "allKpIndex" = none
      ∧ ∃ r, stormOfElem (.obj []) = .ok r ∧ r.kpIndex = Json.null)
    ∧ (lookupField [("allKpIndex", .arr [])] "allKpIndex" = some (.arr [])
      ∧ ∃ r, stormOfElem (.obj [("allKpIndex", .arr [])]) = .ok r ∧ r.kpIndex = Json.null)
    ∧ (lookupField [("allKpIndex", .arr [.obj [("kpIndex", .num 7)]])] "allKpIndex"
          = some (.arr [.obj [("kpIndex", .num 7)]])
      ∧ ∃ r, stormOfElem (.obj [("allKpIndex", .arr [.obj [("kpIndex", .num 7)]])]) = .ok r
        ∧ r.kpIndex = (lookupField [("kpIndex", .num 7)] "kpIndex").getD .null) :=
  ⟨⟨rfl, c9_storm_kp.1 [] rfl⟩,
   ⟨rfl, c9_storm_kp.2.1 [("allKpIndex", .arr [])] rfl⟩,
   ⟨rfl, c9_storm_kp.2.2 [("allKpIndex", .arr [.obj [("kpIndex", .num 7)]])]
      [("kpIndex", .num 7)] [] rfl⟩⟩

/-- Claim C6 as stated is false: for an element with a missing
`startTime` key the normalized CME record holds null (Python `None`),
which is neither the placeholder string "N/A" nor the empty string. -/
theorem c6_counterexample :
    get_cme_events (some (.arr [.obj []]))
      = .ok (some [⟨.null, .null, .null, .str ""⟩])
    ∧ Json.null ≠ Json.str "N/A" ∧ Json.null ≠ Json.str "" :=
  ⟨rfl, fun h => Json.noConfusion h, fun h => Json.noConfusion h⟩

/-- Claim C6 (corrected): field extraction over CME / flare / storm
elements uses permissive key lookup and never errors on a dict element -
but a missing key yields null (or the empty string for the `link`
field), not the "N/A" placeholder, which is supplied at render time;
each normalized list is truncated to its first 5 elements. -/
theorem c6_missing_key_defaults :
    (∀ fields : List (String × Json),
      ∃ r, cmeOfElem (.obj fields) = .ok r
        ∧ (lookupField fields "startTime" = none → r.startTime = .null)
        ∧ (lookupField fields "sourceLocation" = none → r.sourceLocation = .null)
        ∧ (lookupField fields "catalog" = none → r.catalog = .null)
        ∧ (lookupField fields "link" = none → r.link = .str ""))
    ∧ (∀ fields : List (String × Json),
      ∃ r, flareOfElem (.obj fields) = .ok r
        ∧ (lookupField fields "beginTime" = none → r.beginTime = .null)
        ∧ (lookupField fields "peakTime" = none → r.peakTime = .null)
        ∧ (lookupField fields "classType" = none → r.classType = .null)
        ∧ (lookupField fields "sourceLocation" = none → r.sourceLocation = .null)
        ∧ (lookupField fields "link" = none → r.link = .str ""))
    ∧ (∀ fields : List (String × Json), lookupField fields "allKpIndex" = none →
      ∃ r, stormOfElem (.obj fields) = .ok r ∧ r.kpIndex = .null
        ∧ (lookupField fields "startTime" = none → r.startTime = .null)
        ∧ (lookupField fields "link" = none → r.link = .str ""))
    ∧ (∀ (elems : List Json) (recs : List CmeRecord),
        get_cme_events (some (.arr elems)) = .ok (some recs) → recs.length ≤ 5)
    ∧ (∀ (elems : List Json) (recs : List FlareRecord),
        get_solar_flares (some (.arr elems)) = .ok (some recs) → recs.length ≤ 5)
    ∧ (∀ (elems : List Json) (recs : List StormRecord),
        get_geomagnetic_storms (some (.arr elems)) = .ok (some recs) → recs.length ≤ 5) := by
  refine ⟨?_, ?_, ?_, get_cme_events_take5, get_solar_flares_take5,
    get_geomagnetic_storms_take5⟩
  · intro fields
    refine ⟨_, cmeOfElem_obj fields, ?_, ?_, ?_, ?_⟩ <;>
      (intro h; simp [h])
  · intro fields
    refine ⟨_, flareOfElem_obj fields, ?_, ?_, ?_, ?_, ?_⟩ <;>
      (intro h; simp [h])
  · intro fields hkp
    refine ⟨_, stormOfElem_no_kp fields hkp, rfl, ?_, ?_⟩ <;>
      (intro h; simp [h])

/-- Witness for C6 at the element with no keys at all. -/
theorem c6_missing_key_defaults_witness :
    (∃ r, cmeOfElem (.obj []) = .ok r ∧ r.startTime = Json.null ∧ r.link = Json.str "")
    ∧ (∃ recs, get_cme_events (some (.arr [.obj [], .obj [], .obj [], .obj [], .obj [],
        .obj []])) = .ok (some recs) ∧ recs.length ≤ 5) := by
  constructor
  · obtain ⟨r, hr, h1, _, _, h4⟩ := c6_missing_key_defaults.1 []
    exact ⟨r, hr, h1 rfl, h4 rfl⟩
  · refine ⟨_, rfl, ?_⟩
    exact c6_missing_key_defaults.2.2.2.1 [.obj [], .obj [], .obj [], .obj [], .obj [], .obj []]
      _ rfl

theorem alertOfElem_good (a : Json) (h : goodAlert a) :
    ∃ r, alertOfElem a = .ok r
      ∧ r.messageBody = .str (String.mk ((alertBody a).toList.take 200) ++ "...") := by
  cases a with
  | obj fields =>
    rcases hlk : lookupField fields "messageBody" with _ | j
    · refine ⟨⟨(lookupField fields "messageType").getD .null,
               (lookupField fields "messageIssueTime").getD .null,
               .str (String.mk ((alertBody (Json.obj fields)).toList.take 200) ++ "...")⟩,
        ?_, rfl⟩
      simp only [alertBody, hlk]
      simp only [alertOfElem, Json.get, hlk, Option.getD_none, ok_bind, pySliceTake,
        pyAddStr]
      rfl
    · cases j with
      | str s =>
        refine ⟨⟨(lookupField fields "messageType").getD .null,
                 (lookupField fields "messageIssueTime").getD .null,
                 .str (String.mk ((alertBody (Json.obj fields)).toList.take 200) ++ "...")⟩,
          ?_, rfl⟩
        simp only [alertBody, hlk]
        simp only [alertOfElem, Json.get, hlk, Option.getD_some, ok_bind, pySliceTake,
          pyAddStr]
        rfl
      | null => simp only [goodAlert, hlk] at h
      | bool b => simp only [goodAlert, hlk] at h
      | num q => simp only [goodAlert, hlk] at h
      | arr l => simp only [goodAlert, hlk] at h
      | obj l => simp only [goodAlert, hlk] at h
  | null => exact h.elim
  | bool b => exact h.elim
  | num q => exact h.elim
  | str s => exact h.elim
  | arr l => exact h.elim

/-! ## Claim C7 -/

/-- Claim C7 (confirmed): for a non-empty alerts response of well-shaped
elements, at most the first 5 elements are normalized, and every
returned `messageBody` is the first 200 characters of the original body
with the "..." marker appended - also when the body is shorter than 200
characters. -/
theorem c7_alert_truncation :
    ∀ elems : List Json, elems ≠ [] →
      (∀ a ∈ elems.take 5, goodAlert a) →
      ∃ recs, get_space_weather_alerts (some (.arr elems)) = .ok (some recs)
        ∧ recs.length ≤ 5
        ∧ List.Forall₂
            (fun a r => r.messageBody
              = .str (String.mk ((alertBody a).toList.take 200) ++ "..."))
            (elems.take 5) recs := by
  intro elems hne hgood
  obtain ⟨recs, hrecs, hF⟩ := mapME_ok_of_forall alertOfElem
    (fun a r => r.messageBody = .str (String.mk ((alertBody a).toList.take 200) ++ "..."))
    (elems.take 5) (fun a ha => alertOfElem_good a (hgood a ha))
  have htr : fetchFalsy (some (.arr elems)) = false := by
    cases elems with
    | nil => exact absurd rfl hne
    | cons a l => rfl
  refine ⟨recs, ?_, ?_, hF⟩
  · rw [get_space_weather_alerts, htr]
    simp only [Bool.false_eq_true, if_false, Option.getD_some, pySliceTake, ok_bind,
      Json.iter, hrecs]
    rfl
  · rw [← List.Forall₂.length_eq hF]
    exact List.length_take_le 5 elems

/-- Witness for C7 at a one-element response whose body is shorter than
200 characters. -/
theorem c7_alert_truncation_witness :
    ([Json.obj [("messageBody", .str "short message")]] ≠ [])
    ∧ (∀ a ∈ ([Json.obj [("messageBody", .str "short message")]]).take 5, goodAlert a)
    ∧ ∃ recs,
        get_space_weather_alerts (some (.arr [.obj [("messageBody", .str "short message")]]))
          = .ok (some recs)
        ∧ recs.length ≤ 5
        ∧ List.Forall₂
            (fun a r => r.messageBody
              = .str (String.mk ((alertBody a).toList.take 200) ++ "..."))
            (([Json.obj [("messageBody", .str "short message")]]).take 5) recs := by
  refine ⟨?_, ?_, ?_⟩
  · intro h
    cases h
  · intro a ha
    rw [List.mem_singleton.mp ha]
    exact trivial
  · refine c7_alert_truncation [.obj [("messageBody", .str "short message")]]
      (fun h => by cases h) ?_
    intro a ha
    rw [List.mem_singleton.mp ha]
    exact trivial

theorem windOfElem_speed_pos (d : Json) (r : WindRecord)
    (h : windOfElem d = some r) : 0 < r.speed := by
  simp only [windOfElem] at h
  split at h
  · cases h
  · split at h
    · cases h
    · split at h
      · cases h
      · split at h
        · cases h
        · split at h
          · split at h
            · cases h
            · injection h with h
              subst h
              assumption
          · cases h

theorem windOfElem_speed_fail (fields : List (String × Json)) (v : Json) (err : PyErr)
    (h1 : lookupField fields "proton_speed" = some v) (h2 : pyFloat v = .error err) :
    windOfElem (.obj fields) = none := by
  simp only [windOfElem, Json.get, h1, Option.getD_some, h2]

theorem windOfElem_density_fail (fields : List (String × Json)) (v w : Json) (q : Rat)
    (err : PyErr) (h1 : lookupField fields "proton_speed" = some v)
    (h2 : pyFloat v = .ok q) (h3 : lookupField fields "proton_density" = some w)
    (h4 : pyFloat w = .error err) :
    windOfElem (.obj fields) = none := by
  simp only [windOfElem, Json.get, h1, h3, Option.getD_some, h2, h4]

/-! ## Claim C5 -/

/-- Claim C5 (confirmed): elements whose `proton_speed` or
`proton_density` fails float coercion are skipped without aborting the
batch, only elements with coerced speed strictly greater than 0 are
kept, at most the last 60 qualifying elements are returned in original
order, and the spec's three-element example yields exactly one sample
with speed 400 and density 5. -/
theorem c5_wind_normalizer :
    (∀ (fields : List (String × Json)) (v : Json) (err : PyErr),
      lookupField fields "proton_speed" = some v → pyFloat v = .error err →
      windOfElem (.obj fields) = none)
    ∧ (∀ (fields : List (String × Json)) (v w : Json) (q : Rat) (err : PyErr),
      lookupField fields "proton_speed" = some v → pyFloat v = .ok q →
      lookupField fields "proton_density" = some w → pyFloat w = .error err →
      windOfElem (.obj fields) = none)
    ∧ (∀ (d : Json) (elems : List Json), windOfElem d = none →
      get_solar_wind_data (some (.arr (d :: elems))) = get_solar_wind_data (some (.arr elems)))
    ∧ (∀ (elems : List Json) (l : List WindRecord),
      get_solar_wind_data (some (.arr elems)) = some l →
      l.length ≤ 60 ∧ (∀ r ∈ l, 0 < r.speed) ∧ l <:+ elems.filterMap windOfElem)
    ∧ get_solar_wind_data (some (.arr windExampleElems)) = some [⟨.null, 400, 5⟩] := by
  refine ⟨windOfElem_speed_fail, windOfElem_density_fail, ?_, ?_, rfl⟩
  · intro d elems h
    simp only [get_solar_wind_data, List.filterMap_cons_none h]
  · intro elems l h
    simp only [get_solar_wind_data] at h
    split at h
    · cases h
    · injection h with h
      subst h
      refine ⟨takeLast_length_le _ _, ?_, takeLast_suffix _ _⟩
      intro r hr
      have hr' : r ∈ elems.filterMap windOfElem :=
        (takeLast_suffix 60 (elems.filterMap windOfElem)).subset hr
      obtain ⟨d, _, hd⟩ := List.mem_filterMap.mp hr'
      exact windOfElem_speed_pos d r hd

/-- Witness for C5 at the spec's example input and a failing element. -/
theorem c5_wind_normalizer_witness :
    (lookupField [("proton_speed", Json.str "abc"), ("proton_density", Json.str "1")]
        "proton_speed" = some (.str "abc")
      ∧ pyFloat (.str "abc") = .error .valueError
      ∧ windOfElem (.obj [("proton_speed", .str "abc"), ("proton_density", .str "1")]) = none)
    ∧ (get_solar_wind_data (some (.arr windExampleElems)) = some [⟨.null, 400, 5⟩]
      ∧ ([(⟨.null, 400, 5⟩ : WindRecord)]).length ≤ 60
      ∧ [(⟨.null, 400, 5⟩ : WindRecord)] <:+ windExampleElems.filterMap windOfElem) :=
  ⟨⟨rfl, rfl,
    c5_wind_normalizer.1 [("proton_speed", .str "abc"), ("proton_density", .str "1")]
      (.str "abc") .valueError rfl rfl⟩,
   ⟨rfl,
    (c5_wind_normalizer.2.2.2.1 windExampleElems [⟨.null, 400, 5⟩] rfl).1,
    (c5_wind_normalizer.2.2.2.1 windExampleElems [⟨.null, 400, 5⟩] rfl).2.2⟩⟩

/-! ## Claim C1 -/

/-- Claim C1 as stated is false: a truthy non-list parsed-JSON response
(here a non-empty JSON object) makes `get_cme_events` iterate over the
object's keys and call `.get` on a string, raising `AttributeError` to
the caller instead of yielding the unavailable sentinel. The other NASA
feeds raise the same way. -/
theorem c1_counterexample :
    get_cme_events (some (.obj [("error", .str "rate limited")]))
      = .error .attributeError
    ∧ get_solar_flares (some (.obj [("error", .str "rate limited")]))
      = .error .attributeError
    ∧ get_geomagnetic_storms (some (.obj [("error", .str "rate limited")]))
      = .error .attributeError
    ∧ get_space_weather_alerts (some (.obj [("error", .str "rate limited")]))
      = .error .typeError :=
  ⟨rfl, rfl, rfl, rfl⟩

/-- Claim C1 (corrected): the NOAA list feeds (wind, k-index, flux)
return the unavailable sentinel for every non-list parsed-JSON response
and for a failed request, and never raise (they are total with no error
outcome); the sunspot feed passes the response through verbatim; the
NASA feeds (CME, flares, storms, alerts) return the sentinel exactly
for falsy responses - a truthy non-list response can raise (see the
counterexample). -/
theorem c1_feed_isolation :
    (∀ j : Json, j.isList = false →
      get_solar_wind_data (some j) = none
        ∧ get_geomagnetic_index (some j) = none
        ∧ get_solar_flux (some j) = none)
    ∧ (get_solar_wind_data none = none
        ∧ get_geomagnetic_index none = none
        ∧ get_solar_flux none = none)
    ∧ (∀ d : Option Json, get_sunspot_data d = d)
    ∧ (∀ d : Option Json, fetchFalsy d = true →
      get_cme_events d = .ok none
        ∧ get_solar_flares d = .ok none
        ∧ get_geomagnetic_storms d = .ok none
        ∧ get_space_weather_alerts d = .ok none) := by
  refine ⟨?_, ⟨rfl, rfl, rfl⟩, fun d => rfl, ?_⟩
  · intro j hj
    cases j with
    | arr l => simp [Json.isList] at hj
    | null => exact ⟨rfl, rfl, rfl⟩
    | bool b => exact ⟨rfl, rfl, rfl⟩
    | num q => exact ⟨rfl, rfl, rfl⟩
    | str s => exact ⟨rfl, rfl, rfl⟩
    | obj fields => exact ⟨rfl, rfl, rfl⟩
  · intro d hd
    refine ⟨?_, ?_, ?_, ?_⟩
    · rw [get_cme_events, if_pos hd]; rfl
    · rw [get_solar_flares, if_pos hd]; rfl
    · rw [get_geomagnetic_storms, if_pos hd]; rfl
    · rw [get_space_weather_alerts, if_pos hd]; rfl

/-- Witness for C1 at a non-list JSON object and a failed request. -/
theorem c1_feed_isolation_witness :
    (Json.isList (.obj [("error", .str "rate limited")]) = false
      ∧ get_solar_wind_data (some (.obj [("error", .str "rate limited")])) = none)
    ∧ (fetchFalsy none = true ∧ get_cme_events none = .ok none) :=
  ⟨⟨rfl, (c1_feed_isolation.1 (.obj [("error", .str "rate limited")]) rfl).1⟩,
   ⟨rfl, (c1_feed_isolation.2.2.2 none rfl).1⟩⟩

end SpaceWeather
